import Mathlib

/-!
Verification of the chat-downloader command-line layer (cli.py).

The file shallowly embeds the pure content of cli.py:
the parameter introspector (get_info), the boolean-flag synthesizer branch
of add_param, argparse's store_true / store_false action semantics, the
debug-mode resolution block, and the dispatch loop with its
try / except / finally structure, modelled as an event trace.

External collaborators (docstring_parser, get_default_args, argparse's
parser object, ChatDownloader, ContinuousWriter, the logger) appear only
through their outputs, which the embedded functions take as inputs.
-/

/-- A Python value as it appears in the defaults dictionary returned by
get_default_args and in argparse defaults.  PyVal.none models Python's None;
dict.get on a missing key also yields PyVal.none, exactly as in Python where
args.get(name) returns None both for a missing key and for a stored None. -/
inductive PyVal where
  | none
  | bool (b : Bool)
  | int (n : Int)
  | str (s : String)
deriving DecidableEq, Repr

/-- Python truthiness, bool(v), for the values of PyVal. -/
def truthy : PyVal → Bool
  | PyVal.none => false
  | PyVal.bool b => b
  | PyVal.int n => decide (n ≠ 0)
  | PyVal.str s => decide (s.length ≠ 0)

/-- One entry of docstring_parser's parse(...).params: an argument name and
its description text. -/
structure DocParam where
  arg_name : String
  description : String
deriving DecidableEq, Repr

/-- The value stored for one parameter by get_info in cli.py:
a help string and a default. -/
structure ParamInfo where
  help : String
  default : PyVal
deriving DecidableEq, Repr

/-- Python dict lookup d.get(k) on an insertion-ordered association list:
the stored value, or PyVal.none when the key is absent. -/
def dictGet (d : List (String × PyVal)) (k : String) : PyVal :=
  match d.find? (fun p => p.1 == k) with
  | some p => p.2
  | Option.none => PyVal.none

/-- Python dict assignment d[k] = v on an insertion-ordered association
list: replace in place when the key exists, append otherwise. -/
def dictInsert (d : List (String × ParamInfo)) (k : String) (v : ParamInfo) :
    List (String × ParamInfo) :=
  if d.any (fun p => p.1 == k) then
    d.map (fun p => if p.1 == k then (k, v) else p)
  else
    d ++ [(k, v)]

/-- cli.py get_info (lines 53-65): iterate over the parsed docstring's
params and map each documented name to its description together with
args.get(name), where args is the defaults dictionary of the function
(the output of get_default_args, taken here as an input). -/
def get_info (docparams : List DocParam) (args : List (String × PyVal)) :
    List (String × ParamInfo) :=
  docparams.foldl
    (fun info p => dictInsert info p.arg_name ⟨p.description, dictGet args p.arg_name⟩)
    []

/-- An argparse store action for a synthesized flag. -/
inductive ArgAction where
  | storeTrue
  | storeFalse
deriving DecidableEq, Repr

/-- The flag produced by add_param's boolean-flag branch: the computed
store action, plus the default and help taken from the introspected
info entry (spread into add_argument via info[key]). -/
structure BoolFlagSpec where
  action : ArgAction
  flagDefault : PyVal
  help : String
deriving DecidableEq, Repr

/-- cli.py add_param, boolean-flag branch (lines 73-80): the action is
store_X where X = str(not bool(default)).lower() and default is
kwargs.pop with key default and fallback None — the default explicitly
passed by the caller, PyVal.none when the caller passed none.  The
introspected entry contributes the flag's default value and help text
through info[key]. -/
def add_param_boolFlag (entry : ParamInfo) (kwargsDefault : PyVal) : BoolFlagSpec :=
  { action := if truthy kwargsDefault then ArgAction.storeFalse else ArgAction.storeTrue
    flagDefault := entry.default
    help := entry.help }

/-- argparse semantics of a store_true / store_false flag with an explicit
default: when the flag is present on the command line the action's constant
(True for store_true, False for store_false) is stored; when absent, the
declared default is stored. -/
def flagValue (spec : BoolFlagSpec) (present : Bool) : PyVal :=
  if present then
    match spec.action with
    | ArgAction.storeTrue => PyVal.bool true
    | ArgAction.storeFalse => PyVal.bool false
  else
    spec.flagDefault

/-- cli.py line 157-158: the --sort_keys argument is registered with
action store_false (and no explicit default, so argparse's store_false
default of True applies). -/
def sort_keys_spec : BoolFlagSpec :=
  { action := ArgAction.storeFalse
    flagDefault := PyVal.bool true
    help := "Sort keys when outputting to a file" }

/-- The sort_keys value bound by the parser and later passed to
ContinuousWriter, as a function of whether --sort_keys was given. -/
def sort_keys_value (flagPresent : Bool) : PyVal :=
  flagValue sort_keys_spec flagPresent

/-- One of the six values accepted by the --logging flag. -/
inductive LogLevel where
  | none
  | debug
  | info
  | warning
  | error
  | critical
deriving DecidableEq, Repr

/-- The raw parsed flags that the debug-mode block of main reads and
mutates: the three store_true mode flags, the --logging choice, and
pause_on_debug. -/
structure ModeArgs where
  testing : Bool
  verbose : Bool
  quiet : Bool
  logging : LogLevel
  pause_on_debug : Bool
deriving DecidableEq, Repr

/-- cli.py lines 193-200: the two independent if-statements that mutate
args — testing forces logging to debug and pause_on_debug to True;
verbose forces logging to debug.  testing, verbose and quiet themselves
are never changed. -/
def resolveArgs (a : ModeArgs) : ModeArgs :=
  let a1 := if a.testing
    then { a with logging := LogLevel.debug, pause_on_debug := true }
    else a
  if a1.verbose then { a1 with logging := LogLevel.debug } else a1

/-- cli.py line 202: the condition under which the logger is disabled,
evaluated on the already-mutated args — quiet, or logging equal to none. -/
def loggerDisabled (a : ModeArgs) : Bool :=
  a.quiet || (a.logging == LogLevel.none)

/-- The normalized mode state after lines 193-205: the final log level,
the final pause_on_debug, and whether all logging output is disabled. -/
structure ResolvedMode where
  logging : LogLevel
  pause_on_debug : Bool
  disabled : Bool
deriving DecidableEq, Repr

/-- Mode resolution as a pure function: run the two mutation steps, then
read off the level, the pause flag and the disabled bit. -/
def resolveMode (a : ModeArgs) : ResolvedMode :=
  let r := resolveArgs a
  { logging := r.logging
    pause_on_debug := r.pause_on_debug
    disabled := loggerDisabled r }

/-- The exception kinds distinguished by the except-clause ladder of main
(lines 257-285), each concrete exception modelled by its most specific
caught class, plus a constructor for any exception matching no clause. -/
inductive Exc where
  | urlNotProvided
  | siteNotSupported
  | loginRequired
  | videoUnavailable
  | noChatReplay
  | videoUnplayable
  | invalidParameter
  | invalidURL
  | retriesExceeded
  | noContinuation
  | connectionError
  | requestException
  | timeoutException
  | keyboardInterrupt
  | unclassified
deriving DecidableEq, Repr

/-- Log severities used by main's handlers. -/
inductive Severity where
  | debug
  | info
  | error
deriving DecidableEq, Repr

/-- The distinct log messages emitted by the dispatch phase. -/
inductive LogMsg where
  | chatInfo
  | retrieving
  | finished
  | excText (e : Exc)
  | connectivity (e : Exc)
  | interrupted
deriving DecidableEq, Repr

/-- The except-clause ladder of main (lines 257-285) as a classifier:
the severity and message logged for a caught exception kind, or
Option.none when no clause matches and the exception propagates. -/
def handleExc : Exc → Option (Severity × LogMsg)
  | Exc.urlNotProvided => some (Severity.error, LogMsg.excText Exc.urlNotProvided)
  | Exc.siteNotSupported => some (Severity.error, LogMsg.excText Exc.siteNotSupported)
  | Exc.loginRequired => some (Severity.error, LogMsg.excText Exc.loginRequired)
  | Exc.videoUnavailable => some (Severity.error, LogMsg.excText Exc.videoUnavailable)
  | Exc.noChatReplay => some (Severity.error, LogMsg.excText Exc.noChatReplay)
  | Exc.videoUnplayable => some (Severity.error, LogMsg.excText Exc.videoUnplayable)
  | Exc.invalidParameter => some (Severity.error, LogMsg.excText Exc.invalidParameter)
  | Exc.invalidURL => some (Severity.error, LogMsg.excText Exc.invalidURL)
  | Exc.retriesExceeded => some (Severity.error, LogMsg.excText Exc.retriesExceeded)
  | Exc.noContinuation => some (Severity.info, LogMsg.excText Exc.noContinuation)
  | Exc.connectionError => some (Severity.error, LogMsg.connectivity Exc.connectionError)
  | Exc.requestException => some (Severity.error, LogMsg.excText Exc.requestException)
  | Exc.timeoutException => some (Severity.info, LogMsg.excText Exc.timeoutException)
  | Exc.keyboardInterrupt => some (Severity.error, LogMsg.interrupted)
  | Exc.unclassified => Option.none

/-- Observable events of the dispatch phase, in program order: log calls,
console prints, durable-sink writes, sink lifecycle steps. -/
inductive Event where
  | logev (s : Severity) (m : LogMsg)
  | console (m : Nat)
  | fileWrite (m : Nat) (flush : Bool)
  | fileOpen
  | downloaderClose
  | fileClose
deriving DecidableEq, Repr

/-- The two fields of args that shape the dispatch loop. -/
structure DispatchArgs where
  quiet : Bool
  output : Bool
deriving DecidableEq, Repr

/-- cli.py print_formatted (lines 231-234): unless quiet, format the item
and print it to the console. -/
def print_formatted (quiet : Bool) (m : Nat) : List Event :=
  if quiet then [] else [Event.console m]

/-- cli.py write_to_file (lines 243-245): print_formatted, then a durable
write with flush set to True. -/
def write_to_file (quiet : Bool) (m : Nat) : List Event :=
  print_formatted quiet m ++ [Event.fileWrite m true]

/-- cli.py lines 236-249: the callback is write_to_file when an output
path was given, print_formatted otherwise. -/
def callback (quiet output : Bool) (m : Nat) : List Event :=
  if output then write_to_file quiet m else print_formatted quiet m

/-- cli.py lines 251-252: the for-loop over the chat, invoking the
callback on each message in arrival order. -/
def runLoop (quiet output : Bool) : List Nat → List Event
  | [] => []
  | m :: rest => callback quiet output m ++ runLoop quiet output rest

/-- Where the dispatch phase's try-block raises, if anywhere: during
get_chat (before the sink is opened), or during iteration after k
messages were processed, or not at all. -/
inductive FailPoint where
  | ok
  | atGetChat (e : Exc)
  | atLoop (k : Nat) (e : Exc)
deriving DecidableEq, Repr

/-- The two log lines emitted right after get_chat succeeds
(lines 228-229). -/
def preamble : List Event :=
  [Event.logev Severity.debug LogMsg.chatInfo,
   Event.logev Severity.info LogMsg.retrieving]

/-- Lines 236-241: the ContinuousWriter is constructed exactly when an
output path was requested. -/
def openEvents (output : Bool) : List Event :=
  if output then [Event.fileOpen] else []

/-- The finally block (lines 287-291): close the downloader, then close
the output file when one was opened (args.output set and output_file
not None). -/
def finallyEvents (opened : Bool) : List Event :=
  Event.downloaderClose :: (if opened then [Event.fileClose] else [])

/-- The whole dispatch phase of main (lines 225-291) as an event trace
plus a propagation bit: the try-body up to the failure point, then the
matching except clause's log line (or propagation when no clause
matches), then the finally block.  The finally block runs on every path,
including propagation; the file-close branch runs only when the sink was
opened, which requires get_chat to have succeeded and output to be set. -/
def runDispatch (a : DispatchArgs) (msgs : List Nat) (fp : FailPoint) :
    List Event × Bool :=
  match fp with
  | FailPoint.ok =>
      (preamble ++ openEvents a.output ++ runLoop a.quiet a.output msgs
        ++ [Event.logev Severity.info LogMsg.finished]
        ++ finallyEvents a.output, false)
  | FailPoint.atGetChat e =>
      match handleExc e with
      | some sm => ([Event.logev sm.1 sm.2] ++ finallyEvents false, false)
      | Option.none => (finallyEvents false, true)
  | FailPoint.atLoop k e =>
      let body := preamble ++ openEvents a.output
        ++ runLoop a.quiet a.output (msgs.take k)
      match handleExc e with
      | some sm => (body ++ [Event.logev sm.1 sm.2] ++ finallyEvents a.output, false)
      | Option.none => (body ++ finallyEvents a.output, true)

/-- Recognizer for the downloader-release event. -/
def isDownloaderClose : Event → Bool
  | Event.downloaderClose => true
  | _ => false

/-- Recognizer for the durable-sink close event. -/
def isFileClose : Event → Bool
  | Event.fileClose => true
  | _ => false

/-- Recognizer for the durable-sink open event. -/
def isFileOpen : Event → Bool
  | Event.fileOpen => true
  | _ => false

/-- Helper: inserting a key that is not already present appends. -/
theorem dictInsert_of_not_mem (d : List (String × ParamInfo)) (k : String)
    (v : ParamInfo) (h : ∀ q ∈ d, q.1 ≠ k) :
    dictInsert d k v = d ++ [(k, v)] := by
  have hany : d.any (fun p => p.1 == k) = false := by
    simp only [List.any_eq_false]
    intro q hq
    simpa using h q hq
  simp [dictInsert, hany]

/-- Helper: the get_info fold, started from an accumulator whose keys are
disjoint from the docstring names, appends one entry per docstring
parameter when the docstring names are pairwise distinct. -/
theorem get_info_foldl_aux (args : List (String × PyVal)) :
    ∀ (ps : List DocParam) (acc : List (String × ParamInfo)),
      (ps.map DocParam.arg_name).Nodup →
      (∀ p ∈ ps, ∀ q ∈ acc, q.1 ≠ p.arg_name) →
      ps.foldl
        (fun info p =>
          dictInsert info p.arg_name ⟨p.description, dictGet args p.arg_name⟩)
        acc
        = acc ++ ps.map
            (fun p => (p.arg_name, ⟨p.description, dictGet args p.arg_name⟩)) := by
  intro ps
  induction ps with
  | nil => intro acc _ _; simp
  | cons p ps ih =>
      intro acc hnd hacc
      have hins : dictInsert acc p.arg_name ⟨p.description, dictGet args p.arg_name⟩
          = acc ++ [(p.arg_name, ⟨p.description, dictGet args p.arg_name⟩)] :=
        dictInsert_of_not_mem acc p.arg_name _
          (fun q hq => hacc p (List.mem_cons_self p ps) q hq)
      have hnd' : (ps.map DocParam.arg_name).Nodup := by
        simpa using (List.nodup_cons.mp (by simpa using hnd)).2
      have hhead : p.arg_name ∉ ps.map DocParam.arg_name :=
        (List.nodup_cons.mp (by simpa using hnd)).1
      have hacc' : ∀ p' ∈ ps,
          ∀ q ∈ acc ++ [(p.arg_name, (⟨p.description, dictGet args p.arg_name⟩ : ParamInfo))],
            q.1 ≠ p'.arg_name := by
        intro p' hp' q hq
        rcases List.mem_append.mp hq with hq1 | hq2
        · exact hacc p' (List.mem_cons_of_mem _ hp') q hq1
        · have : q = (p.arg_name, (⟨p.description, dictGet args p.arg_name⟩ : ParamInfo)) := by
            simpa using hq2
          subst this
          intro hcontra
          apply hhead
          have heq : p.arg_name = p'.arg_name := hcontra
          rw [heq]
          exact List.mem_map_of_mem DocParam.arg_name hp'
      rw [List.foldl_cons, hins, ih _ hnd' hacc']
      simp

/-- Helper: with pairwise-distinct docstring names, get_info is exactly
one entry per docstring parameter, in order, with the description as help
and args.get(name) as default. -/
theorem get_info_eq_map (docparams : List DocParam) (args : List (String × PyVal))
    (hnd : (docparams.map DocParam.arg_name).Nodup) :
    get_info docparams args
      = docparams.map
          (fun p => (p.arg_name, ⟨p.description, dictGet args p.arg_name⟩)) := by
  have h := get_info_foldl_aux args docparams [] hnd (by intro p _ q hq; cases hq)
  simpa [get_info] using h

/-- Helper: the message loop emits only console prints and file writes,
so any count of lifecycle events over it is zero. -/
theorem runLoop_countP (q o : Bool) (p : Event → Bool)
    (hc : ∀ m, p (Event.console m) = false)
    (hw : ∀ m b, p (Event.fileWrite m b) = false) :
    ∀ ms : List Nat, (runLoop q o ms).countP p = 0 := by
  intro ms
  induction ms with
  | nil => rfl
  | cons m ms ih =>
      cases q <;> cases o <;>
        simp [runLoop, callback, write_to_file, print_formatted,
              List.countP_append, List.countP_cons, hc, hw, ih]

/-- C1: evaluating the registered --sort_keys flag at both command lines.
Passing the flag binds sort_keys to False and omitting it binds True —
the exact inversion of the claim (and of the flag's own help text), since
line 158 registers the flag with action store_false. -/
theorem sort_keys_flag_inverts_documented_intent :
    sort_keys_value true = PyVal.bool false ∧
    sort_keys_value false = PyVal.bool true ∧
    sort_keys_spec.action = ArgAction.storeFalse ∧
    sort_keys_spec.help = "Sort keys when outputting to a file" :=
  ⟨rfl, rfl, rfl, rfl⟩

/-- C2 counterexample: a function with two defaulted parameters a and b of
which only a is documented.  get_info yields a single entry — not one per
function parameter — and parameter b gets no entry at all instead of an
entry with empty help. -/
theorem get_info_not_one_entry_per_function_param :
    (get_info [⟨"a", "help for a"⟩]
        [("a", PyVal.int 1), ("b", PyVal.int 2)]).length = 1 ∧
    ¬ (get_info [⟨"a", "help for a"⟩]
        [("a", PyVal.int 1), ("b", PyVal.int 2)]).length = 2 ∧
    (get_info [⟨"a", "help for a"⟩]
        [("a", PyVal.int 1), ("b", PyVal.int 2)]).find? (fun p => p.1 == "b")
      = Option.none := by
  refine ⟨rfl, by decide, rfl⟩

/-- C2 amended: get_info produces exactly one entry per documentation
entry (assuming pairwise-distinct documented names), in documentation
order, with help taken verbatim from the description and the default
looked up in the function's defaults dictionary (None when absent);
parameters without a documentation entry yield no entry. -/
theorem get_info_entries_follow_docstring_params (docparams : List DocParam)
    (args : List (String × PyVal))
    (hnd : (docparams.map DocParam.arg_name).Nodup) :
    get_info docparams args
      = docparams.map
          (fun p => (p.arg_name, ⟨p.description, dictGet args p.arg_name⟩)) ∧
    (get_info docparams args).length = docparams.length := by
  have h := get_info_eq_map docparams args hnd
  exact ⟨h, by rw [h, List.length_map]⟩

/-- Witness for the amended C2 theorem at a concrete two-entry docstring
and a one-entry defaults dictionary. -/
theorem get_info_entries_follow_docstring_params_witness :
    (([⟨"a", "ha"⟩, ⟨"b", "hb"⟩] : List DocParam).map DocParam.arg_name).Nodup ∧
    (get_info [⟨"a", "ha"⟩, ⟨"b", "hb"⟩] [("a", PyVal.int 1)]
        = ([⟨"a", "ha"⟩, ⟨"b", "hb"⟩] : List DocParam).map
            (fun p => (p.arg_name, ⟨p.description, dictGet [("a", PyVal.int 1)] p.arg_name⟩)) ∧
     (get_info [⟨"a", "ha"⟩, ⟨"b", "hb"⟩] [("a", PyVal.int 1)]).length
        = ([⟨"a", "ha"⟩, ⟨"b", "hb"⟩] : List DocParam).length) :=
  ⟨by decide,
   get_info_entries_follow_docstring_params [⟨"a", "ha"⟩, ⟨"b", "hb"⟩]
     [("a", PyVal.int 1)] (by decide)⟩

/-- C3 counterexample: a parameter documented but absent from the defaults
dictionary.  get_info returns normally and maps it to default None — there
is no error outlet in its type, so no mismatch is surfaced. -/
theorem get_info_silent_none_default :
    get_info [⟨"x", "hx"⟩] [] = [("x", ⟨"hx", PyVal.none⟩)] := rfl

/-- C3 amended: a parameter documented but without a programmatic default
is silently mapped to an entry whose default is None; get_info signals
nothing. -/
theorem get_info_documented_without_default_maps_to_none
    (docparams : List DocParam) (args : List (String × PyVal)) (p : DocParam)
    (hnd : (docparams.map DocParam.arg_name).Nodup)
    (hp : p ∈ docparams)
    (hd : dictGet args p.arg_name = PyVal.none) :
    (p.arg_name, (⟨p.description, PyVal.none⟩ : ParamInfo)) ∈ get_info docparams args := by
  rw [get_info_eq_map docparams args hnd]
  exact List.mem_map.mpr ⟨p, hp, by simp [hd]⟩

/-- Witness for the amended C3 theorem at a concrete documented-only
parameter. -/
theorem get_info_documented_without_default_maps_to_none_witness :
    (([⟨"x", "hx"⟩] : List DocParam).map DocParam.arg_name).Nodup ∧
    (⟨"x", "hx"⟩ : DocParam) ∈ ([⟨"x", "hx"⟩] : List DocParam) ∧
    dictGet [] "x" = PyVal.none ∧
    ("x", (⟨"hx", PyVal.none⟩ : ParamInfo)) ∈ get_info [⟨"x", "hx"⟩] [] :=
  ⟨by decide, by decide, rfl,
   get_info_documented_without_default_maps_to_none [⟨"x", "hx"⟩] [] ⟨"x", "hx"⟩
     (by decide) (by decide) rfl⟩

/-- C4 counterexample: a parameter whose introspected default is True,
synthesized in boolean-flag mode exactly as at the call sites (no explicit
default override, so the popped default is None).  The generated action is
store_true, not store_false, and presence of the flag stores True — the
polarity does not follow the introspected default. -/
theorem bool_flag_polarity_ignores_introspected_default :
    (add_param_boolFlag ⟨"h", PyVal.bool true⟩ PyVal.none).action
      = ArgAction.storeTrue ∧
    ¬ (add_param_boolFlag ⟨"h", PyVal.bool true⟩ PyVal.none).action
      = ArgAction.storeFalse ∧
    flagValue (add_param_boolFlag ⟨"h", PyVal.bool true⟩ PyVal.none) true
      = PyVal.bool true := by
  refine ⟨rfl, by decide, rfl⟩

/-- C4 amended: the polarity of a boolean-mode flag is computed from the
default explicitly supplied in the synthesizer call (None when the caller
supplies none): a truthy explicit default yields store_false, a falsy or
absent one yields store_true.  The introspected default does not affect
the polarity; it only becomes the value stored when the flag is absent. -/
theorem bool_flag_polarity_from_explicit_default (entry : ParamInfo) (d : PyVal) :
    (truthy d = true →
      (add_param_boolFlag entry d).action = ArgAction.storeFalse ∧
      flagValue (add_param_boolFlag entry d) true = PyVal.bool false) ∧
    (truthy d = false →
      (add_param_boolFlag entry d).action = ArgAction.storeTrue ∧
      flagValue (add_param_boolFlag entry d) true = PyVal.bool true) ∧
    flagValue (add_param_boolFlag entry d) false = entry.default := by
  cases hd : truthy d <;> simp [add_param_boolFlag, flagValue, hd]

/-- Witness for the amended C4 theorem, applying it under each of the two
polarity hypotheses at concrete defaults. -/
theorem bool_flag_polarity_from_explicit_default_witness :
    (truthy (PyVal.bool true) = true ∧
      ((add_param_boolFlag ⟨"h", PyVal.bool false⟩ (PyVal.bool true)).action
          = ArgAction.storeFalse ∧
       flagValue (add_param_boolFlag ⟨"h", PyVal.bool false⟩ (PyVal.bool true)) true
          = PyVal.bool false)) ∧
    (truthy (PyVal.bool false) = false ∧
      ((add_param_boolFlag ⟨"h", PyVal.bool true⟩ (PyVal.bool false)).action
          = ArgAction.storeTrue ∧
       flagValue (add_param_boolFlag ⟨"h", PyVal.bool true⟩ (PyVal.bool false)) true
          = PyVal.bool true)) :=
  ⟨⟨rfl, (bool_flag_polarity_from_explicit_default ⟨"h", PyVal.bool false⟩
      (PyVal.bool true)).1 rfl⟩,
   ⟨rfl, (bool_flag_polarity_from_explicit_default ⟨"h", PyVal.bool true⟩
      (PyVal.bool false)).2.1 rfl⟩⟩

/-- C5: mode resolution applies every matching rule — testing forces the
log level to debug and pause_on_debug to true, verbose forces the log
level to debug, and quiet disables all logging output whatever level was
otherwise computed. -/
theorem mode_resolution_applies_all_rules (a : ModeArgs) :
    (a.testing = true →
      (resolveMode a).logging = LogLevel.debug ∧
      (resolveMode a).pause_on_debug = true) ∧
    (a.verbose = true → (resolveMode a).logging = LogLevel.debug) ∧
    (a.quiet = true → (resolveMode a).disabled = true) := by
  obtain ⟨t, v, q, l, p⟩ := a
  cases t <;> cases v <;> cases q <;>
    simp [resolveMode, resolveArgs, loggerDisabled]

/-- Witness for C5 at raw flags with testing, verbose and quiet all set,
discharging each of the three rule hypotheses. -/
theorem mode_resolution_applies_all_rules_witness :
    ((⟨true, true, true, LogLevel.warning, false⟩ : ModeArgs).testing = true ∧
      ((resolveMode ⟨true, true, true, LogLevel.warning, false⟩).logging
          = LogLevel.debug ∧
       (resolveMode ⟨true, true, true, LogLevel.warning, false⟩).pause_on_debug
          = true)) ∧
    ((⟨true, true, true, LogLevel.warning, false⟩ : ModeArgs).verbose = true ∧
      (resolveMode ⟨true, true, true, LogLevel.warning, false⟩).logging
          = LogLevel.debug) ∧
    ((⟨true, true, true, LogLevel.warning, false⟩ : ModeArgs).quiet = true ∧
      (resolveMode ⟨true, true, true, LogLevel.warning, false⟩).disabled = true) :=
  ⟨⟨rfl, (mode_resolution_applies_all_rules
      ⟨true, true, true, LogLevel.warning, false⟩).1 rfl⟩,
   ⟨rfl, (mode_resolution_applies_all_rules
      ⟨true, true, true, LogLevel.warning, false⟩).2.1 rfl⟩,
   ⟨rfl, (mode_resolution_applies_all_rules
      ⟨true, true, true, LogLevel.warning, false⟩).2.2 rfl⟩⟩

/-- C6: mode resolution is total — it is a function defined on every
combination of raw flags and log levels, as the universal quantifier
shows — and idempotent: running the mutation steps on their own output
changes nothing, and the resolved mode of the mutated args equals that of
the original args. -/
theorem mode_resolution_total_idempotent (a : ModeArgs) :
    resolveArgs (resolveArgs a) = resolveArgs a ∧
    resolveMode (resolveArgs a) = resolveMode a := by
  obtain ⟨t, v, q, l, p⟩ := a
  cases t <;> cases v <;>
    simp [resolveArgs, resolveMode, loggerDisabled]

/-- C9: the dispatch loop processes messages strictly one at a time in
arrival order; each message contributes its console print (exactly when
quiet is not active) followed by its flushed durable write (exactly when
an output destination was requested), and both appear before any event of
the next message. -/
theorem dispatch_per_message_order (q o : Bool) (msgs : List Nat) :
    runLoop q o msgs
      = msgs.flatMap (fun m =>
          (if q then [] else [Event.console m])
            ++ (if o then [Event.fileWrite m true] else [])) := by
  induction msgs with
  | nil => rfl
  | cons m ms ih =>
      cases q <;> cases o <;>
        simp [runLoop, callback, write_to_file, print_formatted, ih]

/-- C7: on every exit path of the dispatch phase — normal exhaustion,
a classified exception (including keyboard interruption), or an
unclassified exception raised during acquisition or mid-loop — the trace
contains the downloader release exactly once, and exactly as many
durable-sink closes as durable-sink opens (so the sink is closed if and
only if it was opened). -/
theorem cleanup_exactly_once_all_paths (a : DispatchArgs) (msgs : List Nat)
    (fp : FailPoint) :
    (runDispatch a msgs fp).1.countP isDownloaderClose = 1 ∧
    (runDispatch a msgs fp).1.countP isFileClose
      = (runDispatch a msgs fp).1.countP isFileOpen := by
  obtain ⟨q, o⟩ := a
  have hC := runLoop_countP q o isDownloaderClose (fun _ => rfl) (fun _ _ => rfl)
  have hF := runLoop_countP q o isFileClose (fun _ => rfl) (fun _ _ => rfl)
  have hO := runLoop_countP q o isFileOpen (fun _ => rfl) (fun _ _ => rfl)
  cases fp with
  | ok =>
      cases o <;>
        simp [runDispatch, preamble, openEvents, finallyEvents,
              List.countP_append, List.countP_cons, hC, hF, hO,
              isDownloaderClose, isFileClose, isFileOpen]
  | atGetChat e =>
      cases e <;>
        simp [runDispatch, handleExc, finallyEvents,
              List.countP_append, List.countP_cons,
              isDownloaderClose, isFileClose, isFileOpen]
  | atLoop k e =>
      cases o <;> cases e <;>
        simp [runDispatch, handleExc, preamble, openEvents, finallyEvents,
              List.countP_append, List.countP_cons, hC, hF, hO,
              isDownloaderClose, isFileClose, isFileOpen]

/-- C8: the except-clause ladder is exhaustive over the fixed taxonomy.
Each of the nine acquisition-failure kinds is caught, logged at error
severity and stops the run without re-raising; no-continuation and
timeout are caught at info severity; a connection failure is caught at
error severity with the connectivity-specific message; any other
request-layer failure at error severity; keyboard interruption logs the
interrupted message at error severity; an unclassified exception matches
no clause and propagates out. -/
theorem error_classifier_exhaustive_total (a : DispatchArgs) (msgs : List Nat)
    (k : Nat) (e : Exc) :
    ((e = Exc.urlNotProvided ∨ e = Exc.siteNotSupported ∨ e = Exc.loginRequired ∨
      e = Exc.videoUnavailable ∨ e = Exc.noChatReplay ∨ e = Exc.videoUnplayable ∨
      e = Exc.invalidParameter ∨ e = Exc.invalidURL ∨ e = Exc.retriesExceeded) →
      handleExc e = some (Severity.error, LogMsg.excText e) ∧
      (runDispatch a msgs (FailPoint.atLoop k e)).2 = false ∧
      Event.logev Severity.error (LogMsg.excText e)
        ∈ (runDispatch a msgs (FailPoint.atLoop k e)).1) ∧
    ((e = Exc.noContinuation ∨ e = Exc.timeoutException) →
      handleExc e = some (Severity.info, LogMsg.excText e) ∧
      (runDispatch a msgs (FailPoint.atLoop k e)).2 = false ∧
      Event.logev Severity.info (LogMsg.excText e)
        ∈ (runDispatch a msgs (FailPoint.atLoop k e)).1) ∧
    (e = Exc.connectionError →
      handleExc e = some (Severity.error, LogMsg.connectivity e) ∧
      (runDispatch a msgs (FailPoint.atLoop k e)).2 = false ∧
      Event.logev Severity.error (LogMsg.connectivity e)
        ∈ (runDispatch a msgs (FailPoint.atLoop k e)).1) ∧
    (e = Exc.requestException →
      handleExc e = some (Severity.error, LogMsg.excText e) ∧
      (runDispatch a msgs (FailPoint.atLoop k e)).2 = false) ∧
    (e = Exc.keyboardInterrupt →
      handleExc e = some (Severity.error, LogMsg.interrupted) ∧
      (runDispatch a msgs (FailPoint.atLoop k e)).2 = false ∧
      Event.logev Severity.error LogMsg.interrupted
        ∈ (runDispatch a msgs (FailPoint.atLoop k e)).1) ∧
    (e = Exc.unclassified →
      handleExc e = Option.none ∧
      (runDispatch a msgs (FailPoint.atLoop k e)).2 = true) := by
  obtain ⟨q, o⟩ := a
  cases e <;>
    simp [runDispatch, handleExc, preamble, openEvents, finallyEvents,
          List.mem_append]

/-- Witness for C8 at the first acquisition-failure kind with a concrete
argument record, message list and failure position. -/
theorem error_classifier_exhaustive_total_witness :
    (Exc.urlNotProvided = Exc.urlNotProvided ∨
     Exc.urlNotProvided = Exc.siteNotSupported ∨
     Exc.urlNotProvided = Exc.loginRequired ∨
     Exc.urlNotProvided = Exc.videoUnavailable ∨
     Exc.urlNotProvided = Exc.noChatReplay ∨
     Exc.urlNotProvided = Exc.videoUnplayable ∨
     Exc.urlNotProvided = Exc.invalidParameter ∨
     Exc.urlNotProvided = Exc.invalidURL ∨
     Exc.urlNotProvided = Exc.retriesExceeded) ∧
    (handleExc Exc.urlNotProvided
        = some (Severity.error, LogMsg.excText Exc.urlNotProvided) ∧
     (runDispatch ⟨false, true⟩ [0, 1]
        (FailPoint.atLoop 1 Exc.urlNotProvided)).2 = false ∧
     Event.logev Severity.error (LogMsg.excText Exc.urlNotProvided)
        ∈ (runDispatch ⟨false, true⟩ [0, 1]
            (FailPoint.atLoop 1 Exc.urlNotProvided)).1) :=
  ⟨Or.inl rfl,
   (error_classifier_exhaustive_total ⟨false, true⟩ [0, 1] 1
      Exc.urlNotProvided).1 (Or.inl rfl)⟩

/-- C10: a parameter in boolean-flag mode whose default is absent (None,
as at every call site, where no explicit default is passed): bool(None)
is falsy, so the synthesizer generates a store_true flag, presence of the
flag stores True, and nothing fails on the missing default — the
synthesizer is a total function. -/
theorem bool_flag_missing_default_store_true (h : String) :
    truthy PyVal.none = false ∧
    (add_param_boolFlag ⟨h, PyVal.none⟩ PyVal.none).action = ArgAction.storeTrue ∧
    flagValue (add_param_boolFlag ⟨h, PyVal.none⟩ PyVal.none) true = PyVal.bool true :=
  ⟨rfl, rfl, rfl⟩
